import Mathlib

set_option maxRecDepth 100000

/-
Verification of the annotation utility in `experiment.py`.

The program (26 lines of Python) is embedded shallowly:

  file = 'experiment.csv'
  edf = pd.read_csv('experiment.csv', dtype=str)
  ans = np.full(1000, -1)
  try:
      for i, row in edf.iterrows():
          print(info)
          val = input(... row.text ...)
          ans[i] = val
  finally:
      col = f'test{len(edf.columns) - 2}'
      edf[col] = ans
      edf.to_csv('experiment.csv', index=False)

The file system is abstracted: a run takes the table read from
`experiment.csv` and the sequence of lines the operator types, and returns
the table written back (or the unchanged input when the write is never
reached) together with the propagating error, if any.  An external
interrupt is modelled as the operator input stream ending before the rows
do: the prompt at the next row then fails, exactly as a KeyboardInterrupt
raised inside `input` would, and control transfers to the `finally` block.
-/

namespace Annot

/-- One column of a pandas DataFrame: `read_csv(..., dtype=str)` yields
string cells; the numpy answer buffer assigned in the finally block is an
integer column. -/
inductive ColData where
  | strs (vals : List String)
  | ints (vals : List Int)
deriving DecidableEq

/-- A pandas DataFrame: the length of its RangeIndex (number of rows) and
its named columns in order.  `edf = pd.read_csv('experiment.csv', dtype=str)`
produces such a table with a default index 0..nrows-1. -/
structure DataFrame where
  nrows : Nat
  columns : List (String × ColData)
deriving DecidableEq

/-- The column names of a DataFrame, in order. -/
def colNames (df : DataFrame) : List String := df.columns.map Prod.fst

/-- Look up a column by name (first match), as pandas column access does. -/
def dfGetCol (df : DataFrame) (name : String) : Option ColData :=
  (df.columns.find? (fun c => c.1 == name)).map Prod.snd

/-- Whether `row.text` succeeds: the attribute access inside the `input`
prompt works exactly when the table has a column named "text". -/
def hasText (df : DataFrame) : Bool := df.columns.any (fun c => c.1 == "text")

/-- The path passed to `pd.read_csv`. -/
def readPath : String := "experiment.csv"

/-- The path passed to `edf.to_csv` in the finally block. -/
def writePath : String := "experiment.csv"

/-- ASCII whitespace as stripped by CPython `int(str)`:
space (32) and the control characters 9..13. -/
def isPySpace (c : Char) : Bool := c.toNat == 32 || (9 ≤ c.toNat && c.toNat ≤ 13)

/-- Strip leading and trailing whitespace from a character list. -/
def stripWs (cs : List Char) : List Char :=
  ((cs.dropWhile isPySpace).reverse.dropWhile isPySpace).reverse

/-- Value of a nonempty run of decimal digits, else `none`. -/
def decDigits? (cs : List Char) : Option Nat :=
  if !cs.isEmpty && cs.all Char.isDigit then
    some (cs.foldl (fun a c => a * 10 + (c.toNat - 48)) 0)
  else none

/-- Models CPython `int(s)` on its decimal grammar as exercised by the
program: optional surrounding whitespace, an optional sign, then a nonempty
run of decimal digits.  (Underscore digit grouping and non-ASCII digits are
not modelled; no claim depends on them.)  `none` models the ValueError
raised on malformed input such as "x". -/
def pyInt? (s : String) : Option Int :=
  match stripWs s.toList with
  | '-' :: rest => (decDigits? rest).map (fun n => -(n : Int))
  | '+' :: rest => (decDigits? rest).map (fun n => (n : Int))
  | cs => (decDigits? cs).map (fun n => (n : Int))

/-- Smallest value of the buffer's int64 dtype. -/
def int64Min : Int := -(2 ^ 63)

/-- Largest value of the buffer's int64 dtype. -/
def int64Max : Int := 2 ^ 63 - 1

/-- The coercion performed by the numpy element assignment `ans[i] = val`
on the int64 buffer: CPython `int(val)` followed by the int64 range check
(numpy raises OverflowError outside it).  `none` models either failure. -/
def npIntCast? (s : String) : Option Int :=
  (pyInt? s).bind (fun v => if int64Min ≤ v ∧ v ≤ int64Max then some v else none)

/-- `np.full(1000, -1)` : a fresh integer buffer of `n` copies of `v`. -/
def np_full (n : Nat) (v : Int) : List Int := List.replicate n v

/-- `ans = np.full(1000, -1)` — the answer buffer created at the start of
every run. -/
def ans : List Int := np_full 1000 (-1)

/-- How the `for i, row in edf.iterrows()` loop terminates: normally after
the last row, or by the exception raised at row `i` (0-based):
KeyboardInterrupt during `input` (modelled as the operator stream ending),
ValueError/OverflowError from the coercion in `ans[i] = val`, IndexError
from an out-of-range `i`, or AttributeError from `row.text` when the table
has no "text" column. -/
inductive LoopExit where
  | completed
  | interrupted (row : Nat)
  | valueError (row : Nat)
  | indexError (row : Nat)
  | attrError (row : Nat)
deriving DecidableEq

/-- The annotation loop.  `textOk` is whether `row.text` resolves (constant
over the run), `rem` the number of rows still to visit, `i` the current
0-based row index, `inputs` the operator lines not yet consumed, `buf` the
answer buffer.  Each iteration prints, prompts (consuming one line; an
exhausted stream is the modelled interrupt), then executes `ans[i] = val`:
numpy checks the index against the buffer length and coerces the string. -/
def annotate (textOk : Bool) : Nat → Nat → List String → List Int → LoopExit × List Int
  | 0, _, _, buf => (LoopExit.completed, buf)
  | rem + 1, i, inputs, buf =>
    if textOk then
      match inputs with
      | [] => (LoopExit.interrupted i, buf)
      | val :: rest =>
        if i < buf.length then
          match npIntCast? val with
          | some v => annotate textOk rem (i + 1) rest (buf.set i v)
          | none => (LoopExit.valueError i, buf)
        else (LoopExit.indexError i, buf)
    else (LoopExit.attrError i, buf)

/-- The values the operator successfully enters, in row order: the longest
coercible prefix of the typed lines.  (The loop stops consuming at the
first line whose coercion fails.) -/
def enteredVals : List String → List Int
  | [] => []
  | s :: rest =>
    match npIntCast? s with
    | some v => v :: enteredVals rest
    | none => []

/-- `col = f'test{len(edf.columns) - 2}'` : the label-column name computed
in the finally block from the current column count. -/
def labelColName (edf : DataFrame) : String :=
  "test" ++ toString ((edf.columns.length : Int) - 2)

/-- Column assignment on the column list: pandas `edf[col] = ans` replaces
the column in place when the name exists and appends it at the end
otherwise. -/
def assignCol (cols : List (String × ColData)) (name : String) (vals : List Int) :
    List (String × ColData) :=
  if cols.any (fun c => c.1 == name) then
    cols.map (fun c => if c.1 == name then (name, ColData.ints vals) else c)
  else cols ++ [(name, ColData.ints vals)]

/-- `edf[col] = ans` : pandas first checks that the assigned array's length
equals the length of the index and raises ValueError ("Length of values
does not match length of index") otherwise; on success the column is set. -/
def dfSetCol (df : DataFrame) (name : String) (vals : List Int) :
    Except String DataFrame :=
  if vals.length = df.nrows then
    Except.ok { df with columns := assignCol df.columns name vals }
  else
    Except.error ("Length of values does not match length of index")

/-- `edf.to_csv(path, index=...)` : the written table.  With index true
pandas would prepend the RangeIndex as an unnamed column; the program
passes `index=False`, writing exactly the table's own columns. -/
def to_csv (df : DataFrame) (index : Bool) : DataFrame :=
  if index then
    { df with columns := ("", ColData.ints ((List.range df.nrows).map Int.ofNat)) :: df.columns }
  else df

/-- One column as reread by `read_csv(..., dtype=str)`: every cell comes
back as text, so an integer column is reread as its decimal strings. -/
def strCell (c : String × ColData) : String × ColData :=
  match c.2 with
  | ColData.ints vs => (c.1, ColData.strs (vs.map toString))
  | ColData.strs vs => (c.1, ColData.strs vs)

/-- Reading back a written file with `read_csv(..., dtype=str)` for a
second run of the program on the same path. -/
def csvRoundTrip (df : DataFrame) : DataFrame :=
  { df with columns := df.columns.map strCell }

/-- The error that propagates out of the whole program, if any. -/
inductive RunError where
  | interrupted (row : Nat)
  | valueError (row : Nat)
  | indexError (row : Nat)
  | attrError (row : Nat)
  | lengthMismatch
deriving DecidableEq

/-- The exception (if any) carried out of the try body into `finally`. -/
def exitError : LoopExit → Option RunError
  | LoopExit.completed => none
  | LoopExit.interrupted i => some (RunError.interrupted i)
  | LoopExit.valueError i => some (RunError.valueError i)
  | LoopExit.indexError i => some (RunError.indexError i)
  | LoopExit.attrError i => some (RunError.attrError i)

/-- Observable outcome of one run: the content of `experiment.csv`
afterwards, whether `to_csv` was reached, and the propagating error. -/
structure RunResult where
  file : DataFrame
  written : Bool
  error : Option RunError
deriving DecidableEq

/-- The try body: run the loop over all rows starting at index 0 with a
fresh `ans` buffer. -/
def loopResult (edf : DataFrame) (inputs : List String) : LoopExit × List Int :=
  annotate (hasText edf) edf.nrows 0 inputs ans

/-- One whole run of the program on the table read from `experiment.csv`
and the operator's typed lines.  The finally block runs on every exit path
of the loop; if `edf[col] = ans` raises (length mismatch), that exception
replaces the loop's and `to_csv` is never reached, leaving the file as it
was. -/
def run (edf : DataFrame) (inputs : List String) : RunResult :=
  let r := loopResult edf inputs
  let col := labelColName edf
  match dfSetCol edf col r.2 with
  | Except.ok edf2 =>
    { file := to_csv edf2 false, written := true, error := exitError r.1 }
  | Except.error _ =>
    { file := edf, written := false, error := some RunError.lengthMismatch }

/-- Writing the sequence `vs` of successfully coerced values into the
buffer at consecutive positions starting at `i` — the cumulative effect of
the `ans[i] = val` assignments the loop performs. -/
def storeAll (buf : List Int) (i : Nat) : List Int → List Int
  | [] => buf
  | v :: vs => storeAll (buf.set i v) (i + 1) vs

theorem annotate_length (textOk : Bool) (rem i : Nat) (inputs : List String)
    (buf : List Int) :
    ((annotate textOk rem i inputs buf).2).length = buf.length := by
  induction rem generalizing i inputs buf with
  | zero => simp [annotate]
  | succ rem ih =>
    cases inputs with
    | nil => cases textOk <;> simp [annotate]
    | cons val rest =>
      cases textOk with
      | false => simp [annotate]
      | true =>
        by_cases h : i < buf.length
        · cases hp : npIntCast? val with
          | some v => simp [annotate, h, hp, ih]
          | none => simp [annotate, h, hp]
        · simp [annotate, h]

theorem storeAll_getElem? (vs : List Int) (buf : List Int) (i j : Nat) :
    (storeAll buf i vs)[j]? =
      if i ≤ j ∧ j < i + vs.length ∧ j < buf.length then vs[j - i]?
      else buf[j]? := by
  induction vs generalizing buf i with
  | nil =>
    rw [if_neg (by simp only [List.length_nil]; omega)]
    rfl
  | cons v vs ih =>
    have hstep : storeAll buf i (v :: vs) = storeAll (buf.set i v) (i + 1) vs := rfl
    rw [hstep, ih, List.length_set]
    simp only [List.length_cons]
    by_cases hj : i = j
    · subst hj
      rw [if_neg (by omega)]
      by_cases hlen : i < buf.length
      · rw [List.getElem?_set_self hlen, if_pos ⟨Nat.le_refl i, by omega, hlen⟩,
          Nat.sub_self, List.getElem?_cons_zero]
      · rw [List.set_eq_of_length_le (Nat.le_of_not_lt hlen), if_neg (by omega)]
    · rw [List.getElem?_set_ne hj]
      by_cases hc : i + 1 ≤ j ∧ j < i + 1 + vs.length ∧ j < buf.length
      · rw [if_pos hc, if_pos ⟨by omega, by omega, hc.2.2⟩]
        have hji : j - i = (j - (i + 1)) + 1 := by omega
        rw [hji, List.getElem?_cons_succ]
      · rw [if_neg hc, if_neg (by omega)]

theorem storeAll_replicate (w : List Int) (c : Int) (n : Nat) (h : w.length ≤ n) :
    storeAll (List.replicate n c) 0 w = w ++ List.replicate (n - w.length) c := by
  apply List.ext_getElem?
  intro j
  rw [storeAll_getElem?]
  by_cases hw : j < w.length
  · rw [if_pos (by simp; omega), List.getElem?_append_left hw]
    simp
  · rw [if_neg (by simp; omega), List.getElem?_append_right (by omega)]
    simp only [List.getElem?_replicate]
    split <;> split <;> first | rfl | omega

theorem annotate_ans (rem i : Nat) (inputs : List String) (buf : List Int) :
    (annotate true rem i inputs buf).2 =
      storeAll buf i ((enteredVals inputs).take
        (min rem (min (enteredVals inputs).length (buf.length - i)))) := by
  induction rem generalizing i inputs buf with
  | zero => simp [annotate, storeAll]
  | succ rem ih =>
    cases inputs with
    | nil => simp [annotate, enteredVals, storeAll]
    | cons val rest =>
      by_cases h : i < buf.length
      · cases hp : npIntCast? val with
        | some v =>
          simp only [annotate, if_pos rfl, h, if_true, hp, ih, enteredVals,
            List.length_cons, List.length_set]
          have hk : min (rem + 1) (min ((enteredVals rest).length + 1) (buf.length - i)) =
              min rem (min (enteredVals rest).length (buf.length - (i + 1))) + 1 := by
            omega
          rw [hk, List.take_succ_cons]
          rfl
        | none =>
          simp only [annotate, if_pos rfl, h, if_true, hp, enteredVals]
          have hk : min (rem + 1) (min (List.length ([] : List Int)) (buf.length - i)) = 0 := by
            simp
          rw [hk]
          rfl
      · simp only [annotate, if_pos rfl, h, if_false]
        have hk : min (rem + 1) (min (enteredVals (val :: rest)).length (buf.length - i)) = 0 := by
          omega
        rw [hk]
        rfl

theorem enteredVals_length_le (inputs : List String) :
    (enteredVals inputs).length ≤ inputs.length := by
  induction inputs with
  | nil => simp [enteredVals]
  | cons s rest ih =>
    rw [enteredVals]
    cases npIntCast? s with
    | some v => simpa using Nat.succ_le_succ ih
    | none => simp

theorem annotate_exit_valueError (inputs : List String) (rem i : Nat)
    (buf : List Int)
    (h1 : (enteredVals inputs).length < inputs.length)
    (h2 : (enteredVals inputs).length < rem)
    (h3 : i + (enteredVals inputs).length < buf.length) :
    (annotate true rem i inputs buf).1 =
      LoopExit.valueError (i + (enteredVals inputs).length) := by
  induction inputs generalizing rem i buf with
  | nil => simp [enteredVals] at h1
  | cons s rest ih =>
    cases hp : npIntCast? s with
    | none =>
      have hE : enteredVals (s :: rest) = [] := by rw [enteredVals, hp]
      rw [hE] at h2 h3 ⊢
      obtain ⟨rem, rfl⟩ : ∃ r, rem = r + 1 := ⟨rem - 1, by omega⟩
      have hi : i < buf.length := by simp at h3; omega
      simp [annotate, hi, hp]
    | some v =>
      have hE : enteredVals (s :: rest) = v :: enteredVals rest := by
        rw [enteredVals, hp]
      rw [hE] at h1 h2 h3 ⊢
      simp only [List.length_cons] at h1 h2 h3 ⊢
      obtain ⟨rem, rfl⟩ : ∃ r, rem = r + 1 := ⟨rem - 1, by omega⟩
      have hi : i < buf.length := by omega
      have hrec := ih rem (i + 1) (buf.set i v) (by simpa using h1) (by omega)
        (by rw [List.length_set]; omega)
      have harith : i + 1 + (enteredVals rest).length =
          i + ((enteredVals rest).length + 1) := by omega
      rw [harith] at hrec
      simp [annotate, hi, hp, hrec]

theorem annotate_exit_indexError (inputs : List String) (rem i : Nat)
    (buf : List Int)
    (h1 : buf.length - i < inputs.length)
    (h2 : buf.length - i < rem)
    (h3 : buf.length - i ≤ (enteredVals inputs).length)
    (h4 : i ≤ buf.length) :
    (annotate true rem i inputs buf).1 = LoopExit.indexError buf.length := by
  induction inputs generalizing rem i buf with
  | nil => simp at h1
  | cons s rest ih =>
    obtain ⟨rem, rfl⟩ : ∃ r, rem = r + 1 := ⟨rem - 1, by omega⟩
    by_cases hi : i < buf.length
    · cases hp : npIntCast? s with
      | none =>
        rw [enteredVals, hp] at h3
        simp at h3
        omega
      | some v =>
        rw [enteredVals, hp, List.length_cons] at h3
        have hrec := ih rem (i + 1) (buf.set i v)
          (by rw [List.length_set]; simp at h1 ⊢; omega)
          (by rw [List.length_set]; omega)
          (by rw [List.length_set]; omega)
          (by rw [List.length_set]; omega)
        rw [List.length_set] at hrec
        simp [annotate, hi, hp, hrec]
    · have hieq : i = buf.length := by omega
      simp [annotate, hi, hieq]

theorem annotate_untouched (textOk : Bool) (rem i : Nat) (inputs : List String)
    (buf : List Int) (j : Nat) (h : j < i ∨ i + rem ≤ j) :
    ((annotate textOk rem i inputs buf).2)[j]? = buf[j]? := by
  induction rem generalizing i inputs buf with
  | zero => simp [annotate]
  | succ rem ih =>
    cases inputs with
    | nil => cases textOk <;> simp [annotate]
    | cons val rest =>
      cases textOk with
      | false => simp [annotate]
      | true =>
        by_cases hi : i < buf.length
        · cases hp : npIntCast? val with
          | some v =>
            have hrec := ih (i + 1) rest (buf.set i v) (by omega)
            rw [List.getElem?_set_ne (by omega : i ≠ j)] at hrec
            simp [annotate, hi, hp, hrec]
          | none => simp [annotate, hi, hp]
        · simp [annotate, hi]

theorem assignCol_find? (cols : List (String × ColData)) (name : String)
    (vals : List Int) :
    List.find? (fun c => c.1 == name) (assignCol cols name vals) =
      some (name, ColData.ints vals) := by
  induction cols with
  | nil => simp [assignCol]
  | cons c cs ih =>
    by_cases hc : c.1 = name
    · have hany : (c :: cs).any (fun x => x.1 == name) = true := by
        simp [List.any_cons, hc]
      rw [assignCol, if_pos hany]
      simp [hc]
    · have hcons : assignCol (c :: cs) name vals = c :: assignCol cs name vals := by
        rw [assignCol, assignCol]
        by_cases hany : cs.any (fun x => x.1 == name) = true
        · rw [if_pos (by simp [List.any_cons, hany]), if_pos hany]
          simp [hc]
        · rw [if_neg (by simp [List.any_cons, hc, hany]), if_neg hany]
          simp
      rw [hcons, List.find?_cons_of_neg _ (by simp [hc]), ih]

theorem assignCol_of_fresh (cols : List (String × ColData)) (name : String)
    (vals : List Int) (h : name ∉ cols.map Prod.fst) :
    assignCol cols name vals = cols ++ [(name, ColData.ints vals)] := by
  rw [assignCol, if_neg]
  intro hany
  rw [List.any_eq_true] at hany
  obtain ⟨c, hmem, hc⟩ := hany
  exact h (List.mem_map.mpr ⟨c, hmem, by simpa using hc⟩)

theorem ans_length : ans.length = 1000 :=
  List.length_replicate 1000 (-1)

/-- The `finally` block on a 1000-row table: the length check in
`edf[col] = ans` passes, the column is assigned and `to_csv` runs, so the
run always writes the table with the assigned label column and lets the
loop's own exception (if any) propagate. -/
theorem run_spec (edf : DataFrame) (inputs : List String) (h : edf.nrows = 1000) :
    run edf inputs =
      { file := { nrows := edf.nrows,
                  columns := assignCol edf.columns (labelColName edf)
                    ((loopResult edf inputs).2) },
        written := true,
        error := exitError (loopResult edf inputs).1 } := by
  have hlen : ((loopResult edf inputs).2).length = edf.nrows := by
    rw [loopResult, annotate_length, ans_length, h]
  have hset : dfSetCol edf (labelColName edf) ((loopResult edf inputs).2) =
      Except.ok { nrows := edf.nrows,
                  columns := assignCol edf.columns (labelColName edf)
                    ((loopResult edf inputs).2) } := by
    rw [dfSetCol, if_pos hlen]
  rw [run, hset]
  rfl

/-- On a table whose row count is not 1000, `edf[col] = ans` raises the
pandas length-mismatch ValueError inside `finally`: nothing is written and
that error is the one that propagates. -/
theorem run_mismatch (edf : DataFrame) (inputs : List String) (h : edf.nrows ≠ 1000) :
    run edf inputs =
      { file := edf, written := false, error := some RunError.lengthMismatch } := by
  have hlen : ((loopResult edf inputs).2).length = 1000 := by
    rw [loopResult, annotate_length, ans_length]
  have hset : dfSetCol edf (labelColName edf) ((loopResult edf inputs).2) =
      Except.error ("Length of values does not match length of index") := by
    rw [dfSetCol, if_neg (by rw [hlen]; exact fun hh => h hh.symm)]
  rw [run, hset]

/-- When the table has a "text" column, the buffer at the end of the loop
is exactly the entered values followed by untouched −1 sentinels. -/
theorem loopResult_ans (edf : DataFrame) (inputs : List String)
    (ht : hasText edf = true) :
    (loopResult edf inputs).2 =
      (enteredVals inputs).take
          (min edf.nrows (min (enteredVals inputs).length 1000)) ++
        List.replicate
          (1000 - min edf.nrows (min (enteredVals inputs).length 1000)) (-1) := by
  rw [loopResult, ht, annotate_ans, ans_length, Nat.sub_zero]
  have hw : ((enteredVals inputs).take
      (min edf.nrows (min (enteredVals inputs).length 1000))).length =
      min edf.nrows (min (enteredVals inputs).length 1000) := by
    rw [List.length_take]; omega
  rw [show ans = List.replicate 1000 (-1) from rfl,
    storeAll_replicate _ _ _ (by rw [hw]; omega), hw]

/-- On a 1000-row table the written file's label column (looked up by the
computed name) is exactly the final answer buffer. -/
theorem run_getCol (edf : DataFrame) (inputs : List String) (h : edf.nrows = 1000) :
    dfGetCol (run edf inputs).file (labelColName edf) =
      some (ColData.ints ((loopResult edf inputs).2)) := by
  rw [run_spec edf inputs h, dfGetCol]
  simp only [assignCol_find?, Option.map_some']

theorem strCell_fst (c : String × ColData) : (strCell c).1 = c.1 := by
  cases h : c.2 <;> simp [strCell, h]

theorem csvRoundTrip_nrows (df : DataFrame) : (csvRoundTrip df).nrows = df.nrows :=
  rfl

theorem csvRoundTrip_colNames (df : DataFrame) :
    colNames (csvRoundTrip df) = colNames df := by
  show (df.columns.map strCell).map Prod.fst = df.columns.map Prod.fst
  rw [List.map_map]
  exact List.map_congr_left (fun c _ => strCell_fst c)

theorem colNames_length (df : DataFrame) :
    (colNames df).length = df.columns.length :=
  List.length_map df.columns Prod.fst

/-- A 1000-row table shaped like the program's dataset: an id column and a
text column. -/
def sampleDf1000 : DataFrame :=
  { nrows := 1000,
    columns := [("id", ColData.strs (List.replicate 1000 "0")),
                ("text", ColData.strs (List.replicate 1000 "t"))] }

/-- The spec's 5-row scenario table. -/
def sampleDf5 : DataFrame :=
  { nrows := 5,
    columns := [("id", ColData.strs ["0", "1", "2", "3", "4"]),
                ("text", ColData.strs ["a", "b", "c", "d", "e"])] }

/-- A 4-row table with id and text columns. -/
def sampleDf4 : DataFrame :=
  { nrows := 4,
    columns := [("id", ColData.strs ["0", "1", "2", "3"]),
                ("text", ColData.strs ["a", "b", "c", "d"])] }

/-- The spec's 3-row scenario table: texts "a","b","c", columns id and text. -/
def sampleDf3 : DataFrame :=
  { nrows := 3,
    columns := [("id", ColData.strs ["0", "1", "2"]),
                ("text", ColData.strs ["a", "b", "c"])] }

/-- A 2-row table with id and text columns. -/
def sampleDf2 : DataFrame :=
  { nrows := 2,
    columns := [("id", ColData.strs ["0", "1"]),
                ("text", ColData.strs ["a", "b"])] }

/-- A 1001-row table, one row beyond the answer buffer's capacity. -/
def sampleDf1001 : DataFrame :=
  { nrows := 1001,
    columns := [("text", ColData.strs (List.replicate 1001 "t"))] }

/-- 1001 coercible operator entries. -/
def inputs1001 : List String := List.replicate 1001 "0"

/-- C1 counterexample: on the spec's own 5-row scenario (operator enters 2
and 4, then the run is interrupted) the claim fails: attaching the
1000-long buffer to a 5-row table raises in the finally block, so no file
is saved at all and there is no label column — not [2,4,-1,-1,-1]. -/
theorem C1_counterexample :
    (run sampleDf5 ["2", "4"]).written = false ∧
    (run sampleDf5 ["2", "4"]).file = sampleDf5 ∧
    dfGetCol (run sampleDf5 ["2", "4"]).file (labelColName sampleDf5) = none := by
  decide

/-- C1 (amended): for every dataset with exactly 1000 rows and a text
column, and every number N of rows annotated before the run aborts, is
interrupted, or completes, the label column in the saved file has its
first N entries equal to the values the operator entered, in row order,
and every remaining entry equal to -1. -/
theorem C1_theorem (edf : DataFrame) (inputs : List String)
    (h : edf.nrows = 1000) (ht : hasText edf = true) :
    (run edf inputs).written = true ∧
    dfGetCol (run edf inputs).file (labelColName edf) =
      some (ColData.ints
        ((enteredVals inputs).take (min (enteredVals inputs).length 1000) ++
         List.replicate (1000 - min (enteredVals inputs).length 1000) (-1))) := by
  constructor
  · rw [run_spec edf inputs h]
  · rw [run_getCol edf inputs h, loopResult_ans edf inputs ht, h]
    have hm : min 1000 (min (enteredVals inputs).length 1000) =
        min (enteredVals inputs).length 1000 := by omega
    rw [hm]

/-- C1 witness: the 1000-row table with entries 2 and 4 followed by an
interrupt saves a label column starting [2,4] with 998 sentinels. -/
theorem C1_witness :
    (run sampleDf1000 ["2", "4"]).written = true ∧
    dfGetCol (run sampleDf1000 ["2", "4"]).file (labelColName sampleDf1000) =
      some (ColData.ints
        ((enteredVals ["2", "4"]).take (min (enteredVals ["2", "4"]).length 1000) ++
         List.replicate (1000 - min (enteredVals ["2", "4"]).length 1000) (-1))) :=
  C1_theorem sampleDf1000 ["2", "4"] (by decide) (by decide)

/-- C2 counterexample: on a 4-row dataset the finalization does not attach
the buffer or overwrite the file on any termination path — the attach
raises a length mismatch and the write is never reached. -/
theorem C2_counterexample :
    (run sampleDf4 []).written = false ∧
    (run sampleDf4 []).error = some RunError.lengthMismatch := by
  decide

/-- C2 (amended): for a dataset of exactly 1000 rows whose columns do not
already include the computed label-column name, on every termination path
of the loop — completion, mid-loop error, or interruption — the
finalization runs exactly once: it computes the label-column name from the
column count, appends the full answer buffer as that new column, and
overwrites the dataset at the same path with no row-index column, letting
the loop's own error (if any) propagate afterwards; for other row counts
the attach step raises a length mismatch and the file is not written. -/
theorem C2_theorem (edf : DataFrame) (inputs : List String)
    (h : edf.nrows = 1000) (hf : labelColName edf ∉ colNames edf) :
    (run edf inputs).written = true ∧
    (run edf inputs).file.columns =
      edf.columns ++ [(labelColName edf, ColData.ints ((loopResult edf inputs).2))] ∧
    (run edf inputs).file.nrows = edf.nrows ∧
    (run edf inputs).error = exitError (loopResult edf inputs).1 ∧
    writePath = readPath := by
  rw [run_spec edf inputs h]
  exact ⟨rfl, assignCol_of_fresh _ _ _ hf, rfl, rfl, rfl⟩

/-- C2 witness: a 1000-row run interrupted before the first entry still
writes the table with the appended label column. -/
theorem C2_witness :
    (run sampleDf1000 []).written = true ∧
    (run sampleDf1000 []).file.columns =
      sampleDf1000.columns ++
        [(labelColName sampleDf1000, ColData.ints ((loopResult sampleDf1000 []).2))] ∧
    (run sampleDf1000 []).file.nrows = sampleDf1000.nrows ∧
    (run sampleDf1000 []).error = exitError (loopResult sampleDf1000 []).1 ∧
    writePath = readPath :=
  C2_theorem sampleDf1000 [] (by decide) (by decide)

/-- C3: for every dataset whose row count differs from 1000, attaching the
fixed 1000-length buffer in the finally block raises a length-mismatch
error before the write is reached: the file is unchanged and no annotation
from the session is persisted. -/
theorem C3_theorem (edf : DataFrame) (inputs : List String) (h : edf.nrows ≠ 1000) :
    (run edf inputs).written = false ∧
    (run edf inputs).file = edf ∧
    (run edf inputs).error = some RunError.lengthMismatch := by
  rw [run_mismatch edf inputs h]
  exact ⟨rfl, rfl, rfl⟩

/-- C3 witness: a fully annotated 2-row dataset still saves nothing. -/
theorem C3_witness :
    (run sampleDf2 ["1", "0"]).written = false ∧
    (run sampleDf2 ["1", "0"]).file = sampleDf2 ∧
    (run sampleDf2 ["1", "0"]).error = some RunError.lengthMismatch :=
  C3_theorem sampleDf2 ["1", "0"] (by decide)

/-- C4: whenever a run saves the file (1000 rows, computed name not already
a column), the new label column's name is the string "test" concatenated
with the original column count minus 2, for every dataset contents and
every operator input — independence from row content and entered values. -/
theorem C4_theorem (edf : DataFrame) (inputs : List String)
    (h : edf.nrows = 1000) (hf : labelColName edf ∉ colNames edf) :
    colNames (run edf inputs).file =
      colNames edf ++ ["test" ++ toString ((edf.columns.length : Int) - 2)] := by
  rw [run_spec edf inputs h]
  show (assignCol edf.columns (labelColName edf) ((loopResult edf inputs).2)).map Prod.fst =
    edf.columns.map Prod.fst ++ ["test" ++ toString ((edf.columns.length : Int) - 2)]
  rw [assignCol_of_fresh _ _ _ hf, List.map_append]
  rfl

/-- C4 witness: a 2-column table gets the new column name "test0". -/
theorem C4_witness :
    colNames (run sampleDf1000 ["3"]).file =
      colNames sampleDf1000 ++
        ["test" ++ toString ((sampleDf1000.columns.length : Int) - 2)] :=
  C4_theorem sampleDf1000 ["3"] (by decide) (by decide)

/-- C5 counterexample: non-numeric text "x" on row 1 of a 3-row dataset
aborts the run, but the saved file does NOT contain a new all-(-1) column:
the finalization itself fails on the length mismatch and nothing is
written. -/
theorem C5_counterexample :
    (run sampleDf3 ["x"]).written = false ∧
    (run sampleDf3 ["x"]).file = sampleDf3 := by
  decide

/-- C5 (amended): for a dataset of exactly 1000 rows with a text column,
if the operator's entry on a reached row cannot be coerced to an integer,
the run terminates abnormally with that coercion failure, but only after
the finalization has run: the saved label column holds all values entered
so far followed by -1 sentinels; in particular, non-numeric text on row 1
saves a column whose every entry is -1. -/
theorem C5_theorem (edf : DataFrame) (inputs : List String)
    (h : edf.nrows = 1000) (ht : hasText edf = true)
    (h1 : (enteredVals inputs).length < inputs.length)
    (h2 : (enteredVals inputs).length < 1000) :
    (run edf inputs).error = some (RunError.valueError (enteredVals inputs).length) ∧
    (run edf inputs).written = true ∧
    dfGetCol (run edf inputs).file (labelColName edf) =
      some (ColData.ints (enteredVals inputs ++
        List.replicate (1000 - (enteredVals inputs).length) (-1))) := by
  have hexit : (loopResult edf inputs).1 =
      LoopExit.valueError (enteredVals inputs).length := by
    rw [loopResult, ht]
    have hv := annotate_exit_valueError inputs edf.nrows 0 ans h1 (by omega)
      (by rw [ans_length]; omega)
    simpa using hv
  refine ⟨?_, ?_, ?_⟩
  · rw [run_spec edf inputs h]
    show exitError (loopResult edf inputs).1 = _
    rw [hexit]
    rfl
  · rw [run_spec edf inputs h]
  · rw [run_getCol edf inputs h, loopResult_ans edf inputs ht, h]
    have hm : min 1000 (min (enteredVals inputs).length 1000) =
        (enteredVals inputs).length := by omega
    rw [hm, List.take_length]

/-- C5 witness: "x" on row 1 of the 1000-row table: abnormal end at row 0,
file written, label column all -1. -/
theorem C5_witness :
    (run sampleDf1000 ["x"]).error =
      some (RunError.valueError (enteredVals ["x"]).length) ∧
    (run sampleDf1000 ["x"]).written = true ∧
    dfGetCol (run sampleDf1000 ["x"]).file (labelColName sampleDf1000) =
      some (ColData.ints (enteredVals ["x"] ++
        List.replicate (1000 - (enteredVals ["x"]).length) (-1))) :=
  C5_theorem sampleDf1000 ["x"] (by decide) (by decide) (by decide) (by decide)

/-- C6 counterexample: on the 3-row dataset with texts "a","b","c" and
columns id,text, entering 1, 3, 0 does NOT produce a saved file with a
"test0" column holding [1,3,0]: the finalization fails first. -/
theorem C6_counterexample :
    ¬ ((run sampleDf3 ["1", "3", "0"]).written = true ∧
       dfGetCol (run sampleDf3 ["1", "3", "0"]).file ("test0") =
         some (ColData.ints [1, 3, 0])) := by
  decide

/-- C6 (amended): on the 3-row dataset with texts "a","b","c" and columns
id,text, after the operator enters 1, 3, 0 the finalization's column
attach fails with the pandas length mismatch (1000-long buffer vs 3 rows):
the file is left unchanged and the run terminates with that error. -/
theorem C6_theorem :
    run sampleDf3 ["1", "3", "0"] =
      { file := sampleDf3, written := false,
        error := some RunError.lengthMismatch } := by
  decide

/-- C7: for a dataset with more than 1000 rows whose first 1001 entries
all coerce, the loop reaches the 1001st row and the store `ans[1000] = val`
is an out-of-bounds write into the 1000-entry buffer, aborting the loop
with an IndexError at buffer index 1000. -/
theorem C7_theorem (edf : DataFrame) (inputs : List String)
    (h : 1000 < edf.nrows) (ht : hasText edf = true)
    (hE : 1000 < (enteredVals inputs).length) :
    (loopResult edf inputs).1 = LoopExit.indexError 1000 := by
  rw [loopResult, ht]
  have hle := enteredVals_length_le inputs
  have hi := annotate_exit_indexError inputs edf.nrows 0 ans
    (by rw [ans_length]; omega) (by rw [ans_length]; omega)
    (by rw [ans_length]; omega) (by omega)
  rw [hi, ans_length]

/-- C7 witness: a 1001-row table with 1001 coercible entries aborts with
the out-of-bounds store at buffer index 1000. -/
theorem C7_witness :
    (loopResult sampleDf1001 inputs1001).1 = LoopExit.indexError 1000 :=
  C7_theorem sampleDf1001 inputs1001 (by decide) (by decide) (by decide)

/-- C8: the answer buffer starts every run as np.full(1000, -1), i.e.
exactly 1000 sentinel entries; the loop preserves its length on every
dataset and input stream, and only overwrites entries at visited row
positions — every position at or beyond the row count keeps its original
(sentinel) content. -/
theorem C8_theorem (edf : DataFrame) (inputs : List String) :
    ans = np_full 1000 (-1) ∧
    ans = List.replicate 1000 (-1) ∧
    ((loopResult edf inputs).2).length = 1000 ∧
    (∀ j : Nat, edf.nrows ≤ j → ((loopResult edf inputs).2)[j]? = ans[j]?) := by
  refine ⟨rfl, rfl, ?_, ?_⟩
  · rw [loopResult, annotate_length, ans_length]
  · intro j hj
    rw [loopResult]
    exact annotate_untouched _ _ _ _ _ _ (Or.inr (by omega))

/-- C8 witness: after a run on the 3-row table, the buffer still has
length 1000 and position 7 still holds the sentinel. -/
theorem C8_witness :
    ans = np_full 1000 (-1) ∧
    ans = List.replicate 1000 (-1) ∧
    ((loopResult sampleDf3 ["4"]).2).length = 1000 ∧
    ((loopResult sampleDf3 ["4"]).2)[7]? = ans[7]? := by
  obtain ⟨a, b, c, d⟩ := C8_theorem sampleDf3 ["4"]
  exact ⟨a, b, c, d 7 (by decide)⟩

/-- C9: no validation beyond the integer coercion: whatever integer the
j-th successful entry is — including integers outside 0..4, as the
universally quantified v shows — it is stored unchanged at row j's buffer
position, one prompt per row with no re-prompt. -/
theorem C9_theorem (edf : DataFrame) (inputs : List String) (j : Nat) (v : Int)
    (ht : hasText edf = true) (hj1 : j < edf.nrows) (hj2 : j < 1000)
    (hv : (enteredVals inputs)[j]? = some v) :
    ((loopResult edf inputs).2)[j]? = some v := by
  have hjE : j < (enteredVals inputs).length := by
    by_contra hc
    rw [List.getElem?_eq_none (by omega)] at hv
    cases hv
  rw [loopResult_ans edf inputs ht,
    List.getElem?_append_left (by rw [List.length_take]; omega),
    List.getElem?_take_of_lt (by omega), hv]

/-- C9 witness: entries 9 and -3 (both outside 0..4) are stored verbatim:
row 1 of the 3-row table receives -3. -/
theorem C9_witness :
    ((loopResult sampleDf3 ["9", "-3"]).2)[1]? = some (-3) :=
  C9_theorem sampleDf3 ["9", "-3"] 1 (-3) (by decide) (by decide) (by decide)
    (by decide)

/-- C10 counterexample: running twice in succession on a 4-row dataset
adds no column at all — both runs fail the finalization — refuting "one
additional column each time". -/
theorem C10_counterexample :
    (run (csvRoundTrip (run sampleDf4 ["1", "2", "3", "4"]).file)
        ["1", "2", "3", "4"]).file.columns.length =
      sampleDf4.columns.length ∧
    (run sampleDf4 ["1", "2", "3", "4"]).written = false := by
  decide

/-- C10 (amended): for a dataset of exactly 1000 rows whose columns do not
already include the names the two runs compute, running the program twice
in succession on the same file without changing answers yields one
additional column each time: the second run appends a second,
differently-named label column (named from the now-larger column count)
rather than overwriting the first run's column. -/
theorem C10_theorem (edf : DataFrame) (inputs : List String)
    (h : edf.nrows = 1000)
    (hf1 : labelColName edf ∉ colNames edf)
    (hf2 : labelColName (csvRoundTrip (run edf inputs).file) ∉
      colNames (csvRoundTrip (run edf inputs).file)) :
    (run edf inputs).written = true ∧
    (run (csvRoundTrip (run edf inputs).file) inputs).written = true ∧
    colNames (run edf inputs).file = colNames edf ++ [labelColName edf] ∧
    colNames (run (csvRoundTrip (run edf inputs).file) inputs).file =
      colNames edf ++
        [labelColName edf, labelColName (csvRoundTrip (run edf inputs).file)] ∧
    labelColName (csvRoundTrip (run edf inputs).file) ≠ labelColName edf ∧
    (run edf inputs).file.columns.length = edf.columns.length + 1 ∧
    (run (csvRoundTrip (run edf inputs).file) inputs).file.columns.length =
      edf.columns.length + 2 := by
  have hs1 := run_spec edf inputs h
  have hcols1 : (run edf inputs).file.columns =
      edf.columns ++ [(labelColName edf, ColData.ints ((loopResult edf inputs).2))] := by
    rw [hs1]
    exact assignCol_of_fresh _ _ _ hf1
  have hnames1 : colNames (run edf inputs).file = colNames edf ++ [labelColName edf] := by
    show (run edf inputs).file.columns.map Prod.fst = _
    rw [hcols1, List.map_append]
    rfl
  have hnrows1 : (csvRoundTrip (run edf inputs).file).nrows = 1000 := by
    rw [csvRoundTrip_nrows, hs1, h]
  have hs2 := run_spec (csvRoundTrip (run edf inputs).file) inputs hnrows1
  have hcols2 : (run (csvRoundTrip (run edf inputs).file) inputs).file.columns =
      (csvRoundTrip (run edf inputs).file).columns ++
        [(labelColName (csvRoundTrip (run edf inputs).file),
          ColData.ints ((loopResult (csvRoundTrip (run edf inputs).file) inputs).2))] := by
    rw [hs2]
    exact assignCol_of_fresh _ _ _ hf2
  have hnamesRT : colNames (csvRoundTrip (run edf inputs).file) =
      colNames edf ++ [labelColName edf] := by
    rw [csvRoundTrip_colNames, hnames1]
  have hnames2 : colNames (run (csvRoundTrip (run edf inputs).file) inputs).file =
      colNames edf ++
        [labelColName edf, labelColName (csvRoundTrip (run edf inputs).file)] := by
    show (run (csvRoundTrip (run edf inputs).file) inputs).file.columns.map Prod.fst = _
    rw [hcols2, List.map_append]
    have : (csvRoundTrip (run edf inputs).file).columns.map Prod.fst =
        colNames edf ++ [labelColName edf] := hnamesRT
    rw [this, List.append_assoc]
    rfl
  have hne : labelColName (csvRoundTrip (run edf inputs).file) ≠ labelColName edf := by
    intro he
    apply hf2
    rw [hnamesRT, he]
    exact List.mem_append_right _ (List.mem_singleton_self _)
  have hlen1 : (run edf inputs).file.columns.length = edf.columns.length + 1 := by
    rw [hcols1, List.length_append]
    rfl
  have hlenRT : (csvRoundTrip (run edf inputs).file).columns.length =
      edf.columns.length + 1 := by
    have hh := congrArg List.length hnamesRT
    rw [colNames_length, List.length_append, colNames_length] at hh
    simpa using hh
  have hlen2 : (run (csvRoundTrip (run edf inputs).file) inputs).file.columns.length =
      edf.columns.length + 2 := by
    rw [hcols2, List.length_append, hlenRT]
    rfl
  refine ⟨?_, ?_, hnames1, hnames2, hne, hlen1, hlen2⟩
  · rw [hs1]
  · rw [hs2]

/-- C10 witness: two consecutive runs on the 1000-row two-column table
append "test0" and then "test1". -/
theorem C10_witness :
    (run sampleDf1000 []).written = true ∧
    (run (csvRoundTrip (run sampleDf1000 []).file) []).written = true ∧
    colNames (run sampleDf1000 []).file =
      colNames sampleDf1000 ++ [labelColName sampleDf1000] ∧
    colNames (run (csvRoundTrip (run sampleDf1000 []).file) []).file =
      colNames sampleDf1000 ++
        [labelColName sampleDf1000,
         labelColName (csvRoundTrip (run sampleDf1000 []).file)] ∧
    labelColName (csvRoundTrip (run sampleDf1000 []).file) ≠ labelColName sampleDf1000 ∧
    (run sampleDf1000 []).file.columns.length = sampleDf1000.columns.length + 1 ∧
    (run (csvRoundTrip (run sampleDf1000 []).file) []).file.columns.length =
      sampleDf1000.columns.length + 2 :=
  C10_theorem sampleDf1000 [] (by decide) (by decide) (by decide)

example : npIntCast? ("3") = some 3 := by decide
example : npIntCast? (" -12 ") = some (-12) := by decide
example : npIntCast? ("x") = none := by decide
example : npIntCast? ("") = none := by decide
example : enteredVals ["2", "4"] = [2, 4] := by decide
example : enteredVals ["2", "x", "4"] = [2] := by decide
example : labelColName ⟨3, [("id", ColData.strs []), ("text", ColData.strs [])]⟩ = "test0" := by decide

end Annot
